import Mathlib

/-!
Verification development for the case-study interview engine
(`graph/nodes/interview_nodes.py`, `graph/graph_builder.py`, `app.py`).

Modelling conventions (shallow embedding):

* Python values that flow out of `json.loads` (and hence out of
  `extract_json`) are modelled by the inductive `PyVal`; dictionaries are
  association lists, numbers are rationals.
* Python exceptions are modelled with `Except PyErr`; a node that raises
  produces `Except.error e` and no state update.
* The two external collaborators are modelled as parameters:
  - `llm.invoke(...).content` is an oracle `resp : Except PyErr String`
    (an `error` models the generation call raising);
  - `json.loads` is an oracle `loads : String → Option PyVal`
    (`none` models `json.JSONDecodeError`).
  Prompt strings are only ever passed to the generation oracle, so their
  construction is not modelled; the response is supplied by `resp`.
* The LangGraph state is the structure `InterviewState`.  A node returning a
  dict of updates is modelled as the merged state: returned keys overwrite
  the corresponding fields and the `messages` key appends
  (the `add_messages` channel).
* `str(...)` rendering of numbers approximates Python's float formatting
  (`7` for `7.0`); this affects only message text, never control flow.
-/

/-- Python exception classes that the modelled code can raise. -/
inductive PyErr where
  | indexError
  | keyError
  | attributeError
  | typeError
  | llmError
deriving DecidableEq, Repr

/-- A chat message: `AIMessage` or `HumanMessage` with its `content`. -/
inductive Message where
  | ai (content : String)
  | human (content : String)
deriving DecidableEq, Repr

/-- The `content` of a message when it is a `HumanMessage`. -/
def humanContent : Message → Option String
  | .human c => some c
  | .ai _ => Option.none

/-- A JSON-derived Python value (output of `json.loads`). -/
inductive PyVal where
  | str (s : String)
  | num (q : ℚ)
  | bool (b : Bool)
  | list (l : List PyVal)
  | dict (d : List (String × PyVal))
  | none

mutual
/-- Structural (Python `==`-style) equality test on JSON-derived values. -/
def PyVal.beq : PyVal → PyVal → Bool
  | .str a, .str b => a == b
  | .num a, .num b => a == b
  | .bool a, .bool b => a == b
  | .list a, .list b => pyBeqList a b
  | .dict a, .dict b => pyBeqDict a b
  | .none, .none => true
  | _, _ => false

def pyBeqList : List PyVal → List PyVal → Bool
  | [], [] => true
  | a :: as, b :: bs => PyVal.beq a b && pyBeqList as bs
  | _, _ => false

def pyBeqDict : List (String × PyVal) → List (String × PyVal) → Bool
  | [], [] => true
  | (ka, va) :: as, (kb, vb) :: bs =>
    ka == kb && PyVal.beq va vb && pyBeqDict as bs
  | _, _ => false
end

instance : BEq PyVal := ⟨PyVal.beq⟩

/-- First binding of a key in a Python dict (keys are unique in practice). -/
def dictGet (d : List (String × PyVal)) (k : String) : Option PyVal :=
  (d.find? (fun p => p.1 == k)).map (·.2)

/-- Python truthiness of a value. -/
def PyVal.truthy : PyVal → Bool
  | .str s => !(s == "")
  | .num q => !(q == 0)
  | .bool b => b
  | .list l => !l.isEmpty
  | .dict d => !d.isEmpty
  | .none => false

mutual
/-- Python `repr` of a JSON-derived value (string rendering used inside
containers; numeric rendering approximates Python's). -/
def pyRepr : PyVal → String
  | .str s => "'" ++ s ++ "'"
  | .num q => toString q
  | .bool b => if b then "True" else "False"
  | .list l => "[" ++ pyReprList l ++ "]"
  | .dict d => "\x7b" ++ pyReprDict d ++ "\x7d"
  | .none => "None"

def pyReprList : List PyVal → String
  | [] => ""
  | [v] => pyRepr v
  | v :: rest => pyRepr v ++ ", " ++ pyReprList rest

def pyReprDict : List (String × PyVal) → String
  | [] => ""
  | [(k, v)] => "'" ++ k ++ "': " ++ pyRepr v
  | (k, v) :: rest => "'" ++ k ++ "': " ++ pyRepr v ++ ", " ++ pyReprDict rest
end

/-- Python `str(...)` of a value (top level: a `str` renders as itself). -/
def PyVal.pyStr : PyVal → String
  | .str s => s
  | v => pyRepr v

/-- Python `str(x)` where `x` came from `dict.get(key)` (missing key gives
`None`, rendered `"None"`). -/
def pyStrOpt : Option PyVal → String
  | some v => v.pyStr
  | Option.none => "None"

/-- `v.get(k, d)`: raises `AttributeError` unless `v` is a dict. -/
def pyGetD (v : PyVal) (k : String) (d : PyVal) : Except PyErr PyVal :=
  match v with
  | .dict kv => .ok ((dictGet kv k).getD d)
  | _ => .error .attributeError

/-- `v.get(k)`: `none` models a missing key (Python `None`). -/
def pyGetOpt (v : PyVal) (k : String) : Except PyErr (Option PyVal) :=
  match v with
  | .dict kv => .ok (dictGet kv k)
  | _ => .error .attributeError

/-- `v[k]` for a string key `k`. -/
def pyItem (v : PyVal) (k : String) : Except PyErr PyVal :=
  match v with
  | .dict kv =>
    match dictGet kv k with
    | some x => .ok x
    | Option.none => .error .keyError
  | _ => .error .typeError

/-- `l[i]` for a Python list literal. -/
def pyIndex (l : List PyVal) (i : Nat) : Except PyErr PyVal :=
  match l.get? i with
  | some v => .ok v
  | Option.none => .error .indexError

/-- `k not in v` for a string `k`: key lookup on dicts, membership on lists,
substring test on strings, `TypeError` otherwise. -/
def pyNotIn (k : String) (v : PyVal) : Except PyErr Bool :=
  match v with
  | .dict kv => .ok (dictGet kv k).isNone
  | .list l => .ok (!(l.contains (.str k)))
  | .str s => .ok ((s.splitOn k).length == 1)
  | _ => .error .typeError

/-- Iteration `for x in v`: elements of a list, characters of a string,
keys of a dict; `TypeError` otherwise. -/
def pyIter (v : PyVal) : Except PyErr (List PyVal) :=
  match v with
  | .list l => .ok l
  | .str s => .ok (s.data.map (fun c => .str (String.mk [c])))
  | .dict d => .ok (d.map (fun p => .str p.1))
  | _ => .error .typeError

/-- `v[:n]` (slice from the start): strings and lists; `TypeError` otherwise. -/
def pySlice (v : PyVal) (n : Nat) : Except PyErr PyVal :=
  match v with
  | .str s => .ok (.str (String.mk (s.data.take n)))
  | .list l => .ok (.list (l.take n))
  | _ => .error .typeError

/-- `v['k'] = x` (item assignment): only dicts support it here. -/
def pySetItem (v : PyVal) (k : String) (x : PyVal) : Except PyErr PyVal :=
  match v with
  | .dict kv => .ok (.dict (kv ++ [(k, x)]))
  | _ => .error .typeError

/-- The backtick character (written via its code point). -/
def backquote : Char := Char.ofNat 96

/-- Substring scanner: does the text contain a run of `6` consecutive
backticks?  `run` counts the backticks seen immediately before `cs`. -/
def hasSixBackticksAux : List Char → Nat → Bool
  | [], _ => false
  | c :: rest, run =>
    if c == backquote then
      if run + 1 == 6 then true else hasSixBackticksAux rest (run + 1)
    else hasSixBackticksAux rest 0

/-- Whether `text` contains a run of six consecutive backtick characters,
i.e. whether `re.search` finds the (mangled, group-less) fenced-code-block
pattern of `extract_json`'s strategies 1 and 2. -/
def hasSixBackticks (text : String) : Bool :=
  hasSixBackticksAux text.data 0

/-- Whether a character is neither `\x7b` nor `\x7d`. -/
def nonBrace (c : Char) : Bool :=
  !(c == '\x7b') && !(c == '\x7d')

/-- Matcher for the tail of the brace regex
`\x7b[^\x7b\x7d]*(?:\x7b[^\x7b\x7d]*\x7d[^\x7b\x7d]*)*\x7d` after the
opening brace and the first `[^\x7b\x7d]*` run have been consumed: `acc`
holds the text matched so far.  On this pattern the greedy regex engine is
deterministic, consuming one nested `\x7b...\x7d` group per loop step. -/
def braceTail : Nat → List Char → List Char → Option (List Char)
  | _, '\x7d' :: _, acc => some (acc ++ ['\x7d'])
  | fuel + 1, '\x7b' :: rest, acc =>
    match rest.drop (rest.takeWhile nonBrace).length with
    | '\x7d' :: rest3 =>
      braceTail fuel (rest3.drop (rest3.takeWhile nonBrace).length)
        (acc ++ '\x7b' :: rest.takeWhile nonBrace ++
          '\x7d' :: rest3.takeWhile nonBrace)
    | _ => Option.none
  | _, _, _ => Option.none

/-- Attempt to match the brace regex at the start of `cs`, returning the
matched text (group 0).  The fuel `cs.length` bounds the nested-group loop;
it cannot run out, since every loop step consumes at least two characters
of the remaining input. -/
def braceAt (cs : List Char) : Option (List Char) :=
  match cs with
  | '\x7b' :: rest =>
    braceTail cs.length (rest.drop (rest.takeWhile nonBrace).length)
      ('\x7b' :: rest.takeWhile nonBrace)
  | _ => Option.none

/-- `re.search` for the brace regex: leftmost match in `cs`. -/
def braceSearch : List Char → Option (List Char)
  | [] => Option.none
  | c :: rest =>
    match braceAt (c :: rest) with
    | some m => some m
    | Option.none => braceSearch rest

/-- `text.find(c)`: index of the first occurrence, `none` for `-1`. -/
def strFind (cs : List Char) (c : Char) : Option Nat :=
  cs.findIdx? (· == c)

/-- `text.rfind(c)`: index of the last occurrence, `none` for `-1`. -/
def strRFind (cs : List Char) (c : Char) : Option Nat :=
  (cs.reverse.findIdx? (· == c)).map (fun i => cs.length - 1 - i)

/-- `CaseStudyInterviewNodes.extract_json` (interview_nodes.py lines 13-51),
parametrised by the `json.loads` oracle.

Strategies 1 and 2 both search for the source's literal pattern
`r'``````'`: six backticks with **no capture group**, so whenever the text
contains six consecutive backticks, `code_block.group(1)` raises
`IndexError` (only `json.JSONDecodeError` is caught).  Strategy 3 is the
balanced-brace regex scan; strategy 4 slices from the first `\x7b` to the
last `\x7d`.  If every strategy fails the function returns the empty dict. -/
def extract_json (loads : String → Option PyVal) (text : String) :
    Except PyErr PyVal :=
  if text == "" then .ok (.dict [])
  else if hasSixBackticks text then .error .indexError
  else
    let cs := text.data
    let s3 : Option PyVal :=
      match braceSearch cs with
      | some m => loads (String.mk m)
      | Option.none => Option.none
    match s3 with
    | some v => .ok v
    | Option.none =>
      match strFind cs '\x7b', strRFind cs '\x7d' with
      | some st, some en =>
        if st < en then
          match loads (String.mk ((cs.drop st).take (en + 1 - st))) with
          | some v => .ok v
          | Option.none => .ok (.dict [])
        else .ok (.dict [])
      | _, _ => .ok (.dict [])

/-- Python `str.title()`: uppercase a letter that follows a non-letter,
lowercase the others. -/
def pyTitle (s : String) : String :=
  String.mk (s.data.foldl (fun (p : List Char × Bool) c =>
    let c' := if c.isAlpha then (if p.2 then c.toLower else c.toUpper) else c
    (p.1 ++ [c'], c.isAlpha)) ([], false)).1

/-- `response.content.strip().replace('**', '').replace('*', '')`. -/
def stripStars (r : String) : String :=
  ((r.trim).replace "**" "").replace "*" ""

/-- `re.sub` of a newline followed by digits and a dot, replaced by nothing
(left-to-right, non-overlapping, greedy digit run). -/
def subNewlineNumDot : List Char → List Char
  | [] => []
  | '\n' :: rest =>
    if !(rest.takeWhile Char.isDigit).isEmpty &&
        (rest.drop (rest.takeWhile Char.isDigit).length).head? == some '.' then
      subNewlineNumDot (rest.drop ((rest.takeWhile Char.isDigit).length + 1))
    else '\n' :: subNewlineNumDot rest
  | c :: rest => c :: subNewlineNumDot rest
termination_by cs => cs.length
decreasing_by
  all_goals simp only [List.length_cons]
  · have h2 : (rest.drop ((rest.takeWhile Char.isDigit).length + 1)).length =
        rest.length - ((rest.takeWhile Char.isDigit).length + 1) :=
      List.length_drop ..
    omega
  · omega
  · omega

/-- `re.sub` of leading digits followed by a dot at the start of the string,
replaced by nothing. -/
def subLeadingNumDot (cs : List Char) : List Char :=
  if !(cs.takeWhile Char.isDigit).isEmpty &&
      (cs.drop (cs.takeWhile Char.isDigit).length).head? == some '.' then
    cs.drop ((cs.takeWhile Char.isDigit).length + 1)
  else cs

/-- The extra cleaning applied to follow-up question text (followup_node):
strip, drop `**` and `*`, collapse double newlines to a space, then the two
`re.sub` passes and a final strip. -/
def cleanFollowupText (r : String) : String :=
  let t := (((r.trim).replace "**" "").replace "*" "").replace "\n\n" " "
  let t := String.mk (subNewlineNumDot t.data)
  let t := String.mk (subLeadingNumDot t.data)
  t.trim

/-- The LangGraph interview state (`graph/state.py` plus the untyped keys the
nodes and routers actually read).  Field defaults model the keys that
`app.py`'s initial session dict omits:

* `mcq_answers` is the key the router `after_classification` and the nodes
  read; no writer ever sets it (the UI stores answers under
  `classification_answers`), so `none` models the absent key;
* `case_study` is stored as the Python value itself (`None` initially), since
  the nodes call `.get` on it directly and would raise on `None`;
* option-typed fields model get-with-default reads of possibly-absent keys. -/
structure InterviewState where
  candidate_name : String := ""
  role : String := ""
  skills : List String := []
  messages : List Message := []
  mcq_questions : List PyVal := []
  classification_answers : List String := []
  mcq_answers : Option (List String) := Option.none
  mcq_current_question : Nat := 0
  mcq_completed : Bool := false
  domain : Option String := Option.none
  industry : Option String := Option.none
  case_type : Option String := Option.none
  tech_type : Option String := Option.none
  case_study : PyVal := .none
  current_phase : String := "classification"
  current_activity : String := "start"
  understanding_question_count : Nat := 0
  understanding_complete : Bool := false
  understanding_evaluation : Option PyVal := Option.none
  approach_question_count : Nat := 0
  approach_complete : Bool := false
  approach_evaluation : Option PyVal := Option.none
  followup_question_count : Nat := 0
  followup_complete : Bool := false
  followup_evaluation : Option PyVal := Option.none
  final_evaluation : Option PyVal := Option.none
  interview_complete : Bool := false
  interview_start_time : Option ℚ := Option.none
  validation_failed : Bool := false
  validation_error : Option String := Option.none

/-- The initial interview-state dict built by `app.py` when the candidate
submits the welcome form (fields it omits keep the absent-key defaults). -/
def initial_interview_state (name role : String) (skills : List String) :
    InterviewState :=
  { candidate_name := name, role := role, skills := skills,
    messages := [], current_phase := "classification",
    current_activity := "start", mcq_current_question := 0,
    mcq_questions := [], classification_answers := [],
    mcq_completed := false, case_study := .none,
    understanding_question_count := 0, understanding_complete := false,
    approach_question_count := 0, approach_complete := false,
    interview_complete := false, validation_failed := false }

/-- The most recent `HumanMessage` content (`for msg in reversed(messages)`). -/
def lastHumanMsg (msgs : List Message) : Option String :=
  msgs.reverse.findSome? humanContent

/-- Python truthiness of `last_human_msg` (`None` and `""` are falsy). -/
def lastHumanTruthy (msgs : List Message) : Bool :=
  match lastHumanMsg msgs with
  | some c => !(c == "")
  | Option.none => false

/-- `_evaluate_phase`'s response collection: the last up-to-5 human messages
among the first 30 messages, in chronological order. -/
def candidateResponses (msgs : List Message) : List String :=
  (((msgs.take 30).reverse.filterMap humanContent).take 5).reverse

/-- The canonical fallback MCQ questions (generate_mcq_node). -/
def fallback_questions : List PyVal :=
  [ .dict [("question", .str "What type of problems do you prefer working on?"),
      ("options", .list [
        .dict [("letter", .str "A"), ("text", .str "Data analysis and pattern discovery")],
        .dict [("letter", .str "B"), ("text", .str "Strategic planning and recommendations")],
        .dict [("letter", .str "C"), ("text", .str "Technical system design")]])],
    .dict [("question", .str "Which industry are you most interested in?"),
      ("options", .list [
        .dict [("letter", .str "A"), ("text", .str "Finance/Banking")],
        .dict [("letter", .str "B"), ("text", .str "Healthcare/Life Sciences")],
        .dict [("letter", .str "C"), ("text", .str "Technology/E-commerce")]])],
    .dict [("question", .str "What case complexity do you prefer?"),
      ("options", .list [
        .dict [("letter", .str "A"), ("text", .str "Well-defined problems with clear goals")],
        .dict [("letter", .str "B"), ("text", .str "Exploratory analysis with ambiguity")],
        .dict [("letter", .str "C"), ("text", .str "Mixed - both structured and exploratory")]])]]

/-- `if not question_data:` fallback selection of generate_mcq_node
(lines 137-165): a falsy extraction is replaced by the canonical fallback
question for the current ordinal (raising `IndexError` past ordinal 2). -/
def questionDataOf (qd : PyVal) (mcq_current : Nat) : Except PyErr PyVal :=
  if qd.truthy then .ok qd else pyIndex fallback_questions mcq_current

/-- The MCQ message formatting of generate_mcq_node (lines 167-176). -/
def buildMcqMessage (mcq_current : Nat) (question_data : PyVal) :
    Except PyErr String := do
  let qtext ← pyItem question_data "question"
  let opts ← pyItem question_data "options"
  let optl ← pyIter opts
  let optLines ← optl.mapM (fun opt => do
    let letter ← pyItem opt "letter"
    let t ← pyItem opt "text"
    pure (letter.pyStr ++ ". " ++ t.pyStr ++ "\n"))
  pure ("ğŸ“‹ **Classification Question " ++ toString (mcq_current + 1) ++
    " **\n\n**" ++ qtext.pyStr ++ "**\n\n" ++ String.join optLines ++
    "\nPlease respond with your answer (A, B, or C)")

/-- `CaseStudyInterviewNodes.generate_mcq_node` (lines 55-187). -/
def generate_mcq_node (loads : String → Option PyVal)
    (resp : Except PyErr String) (s : InterviewState) :
    Except PyErr InterviewState := do
  let mcq_current := s.mcq_current_question
  if 3 ≤ (s.mcq_answers.getD []).length then
    return { s with current_activity := "processing_mcq" }
  -- the per-ordinal prompt feeds only the generation oracle
  let r ← resp
  let qd ← extract_json loads r
  let question_data ← questionDataOf qd mcq_current
  let mcq_message ← buildMcqMessage mcq_current question_data
  return { s with
    mcq_questions := s.mcq_questions ++ [question_data],
    mcq_current_question := mcq_current + 1,
    messages := s.messages ++ [.ai mcq_message],
    current_activity := "awaiting_mcq_answer" }

/-- `CaseStudyInterviewNodes.process_mcq_answers_node` (lines 189-232): note
there is no guard on the number of answers; the node always interprets and
always sets the four classification fields. -/
def process_mcq_answers_node (loads : String → Option PyVal)
    (resp : Except PyErr String) (s : InterviewState) :
    Except PyErr InterviewState := do
  -- mcq_questions, mcq_answers, role and skills feed only the prompt
  let r ← resp
  let interpretation ← extract_json loads r
  let domain := pyStrOpt (← pyGetOpt interpretation "domain")
  let industry := pyStrOpt (← pyGetOpt interpretation "industry")
  let case_type := pyStrOpt (← pyGetOpt interpretation "case_type")
  let tech_type := pyStrOpt (← pyGetOpt interpretation "tech_type")
  let case_type_display := pyTitle (case_type.replace "_" " ")
  let confirmation_msg :=
    "**Classification Complete!**\n\nBased on your responses:\n- **Domain**: "
      ++ domain ++ "\n- **Industry**: " ++ industry ++
      "\n- **Case Type**: " ++ case_type_display ++
      "\n- **Tech Type**: " ++ tech_type ++
      "\n\nGenerating your personalized case study..."
  return { s with
    domain := some domain, industry := some industry,
    case_type := some case_type, tech_type := some tech_type,
    mcq_completed := true,
    messages := s.messages ++ [.ai confirmation_msg],
    current_activity := "generating_case" }

/-- The regeneration guard of generate_case_node:
`state.get('case_study') and state.get('case_study').get('company_name')`. -/
def caseGuard (s : InterviewState) : Except PyErr Bool :=
  if !s.case_study.truthy then .ok false
  else do
    let c ← pyGetOpt s.case_study "company_name"
    .ok (c.getD .none).truthy

/-- `if not case_data or 'problem_statement' not in case_data:` — the
short-circuiting fallback test of generate_case_node (line 264). -/
def missingProblemStatement (cd : PyVal) : Except PyErr Bool :=
  if !cd.truthy then .ok true
  else pyNotIn "problem_statement" cd

/-- The generic fallback case document (generate_case_node lines 265-277). -/
def case_fallback (domain industry : String) : PyVal :=
  .dict [
    ("title", .str (industry ++ " " ++ domain ++ " Challenge")),
    ("company_name", .str (industry ++ " Solutions Inc.")),
    ("company_context", .str ("Leading " ++ industry ++ " company")),
    ("situation", .str ("Challenges in " ++ domain.toLower)),
    ("problem_statement", .str ("Solve critical " ++ domain.toLower ++ " problem")),
    ("objective", .str "Improve key metrics by 15%"),
    ("initial_information", .dict [
      ("known_facts", .list [.str "Historical data available",
        .str "Current performance below benchmark"]),
      ("constraints", .list [.str "Budget: $500K", .str "Timeline: 6 months"]),
      ("stakeholders", .list [.str "Executive team", .str "Operations",
        .str "Customers"])])]

/-- One optional bullet-list section of the case presentation: included
only when `initial_info.get(key)` is truthy, in which case the items are
iterated (lines 297-310). -/
def appendInfoSection (initial_info : PyVal) (key header base : String) :
    Except PyErr String := do
  let kf ← pyGetOpt initial_info key
  if (kf.getD .none).truthy then do
    let items ← pyIter (← pyItem initial_info key)
    pure (base ++ "\n**" ++ header ++ ":**\n" ++
      String.join (items.map (fun f => "- " ++ f.pyStr ++ "\n")))
  else pure base

/-- The case-presentation message built by generate_case_node (lines 280-320). -/
def buildCaseMessage (case_data : PyVal) : Except PyErr String := do
  let title ← pyGetD case_data "title" (.str "Business Challenge")
  let company ← pyGetD case_data "company_name" (.str "Unknown Company")
  let situation ← pyGetD case_data "situation" (.str "N/A")
  let problem ← pyGetD case_data "problem_statement" (.str "N/A")
  let base :=
    "\nğŸ¯ **CASE STUDY: " ++ title.pyStr ++ "**\n\n**Company:** " ++
      company.pyStr ++ "\n\n\n**Situation:**\n" ++ situation.pyStr ++
      "\n\n**Problem Statement:**\n" ++ problem.pyStr ++ "\n\n\n"
  let initial_info ← pyGetD case_data "initial_information" (.dict [])
  let base ← appendInfoSection initial_info "known_facts" "Known Facts" base
  let base ← appendInfoSection initial_info "constraints" "Constraints" base
  let base ← appendInfoSection initial_info "stakeholders" "Key Stakeholders"
    base
  pure (base ++
    "\n---\n\nâ±ï¸ **case study  Started!**\n\nPlease share your **initial understanding** of this problem. What are the key issues you identify?\n\nğŸ’¡ *Note: If you need clarification, data, or hints, just ask naturally - I'll help you.*\n")

/-- `CaseStudyInterviewNodes.generate_case_node` (lines 236-333).  FIX #1 in
the source: when a case with a truthy `company_name` already exists, the node
returns only the phase/activity update and performs no generation (the
result does not depend on the oracles). -/
def generate_case_node (loads : String → Option PyVal)
    (resp : Except PyErr String) (now : ℚ) (s : InterviewState) :
    Except PyErr InterviewState := do
  let g ← caseGuard s
  if g then
    return { s with current_phase := "understanding",
                    current_activity := "awaiting_understanding" }
  let domain := s.domain.getD "Data Science"
  let industry := s.industry.getD "Healthcare"
  -- case_type, role, tech_type and skills feed only the generation prompt
  let r ← resp
  let cd ← extract_json loads r
  let useFallback ← missingProblemStatement cd
  let case_data := if useFallback then case_fallback domain industry else cd
  let case_message ← buildCaseMessage case_data
  return { s with
    case_study := case_data,
    messages := s.messages ++ [.ai case_message],
    current_phase := "understanding",
    current_activity := "awaiting_understanding",
    understanding_question_count := 0,
    interview_start_time := some now,
    understanding_complete := false }

/-- `CaseStudyInterviewNodes.understanding_node` (lines 336-444).  The first
follow-up (count 0 with a pending response) invokes generation unprotected;
questions 2 and 3 wrap the call in try/except with a generic fallback. -/
def understanding_node (loads : String → Option PyVal)
    (resp : Except PyErr String) (s : InterviewState) :
    Except PyErr InterviewState := do
  let count := s.understanding_question_count
  let company := PyVal.pyStr
    (← pyGetD s.case_study "company_name" (.str "the company"))
  let _problem ← pyGetD s.case_study "problem_statement" (.str "")
  let hasResp := lastHumanTruthy s.messages
  if count == 0 && hasResp then do
    let r ← resp
    return { s with
      messages := s.messages ++ [.ai (stripStars r)],
      understanding_question_count := 1,
      current_activity := "awaiting_understanding" }
  else if count == 0 && !hasResp then
    return { s with current_activity := "awaiting_understanding" }
  else if 3 ≤ count then
    return { s with understanding_complete := true,
                    current_activity := "phase_complete" }
  else if 0 < count && !hasResp then
    return { s with current_activity := "awaiting_understanding" }
  else
    let question_text :=
      match resp with
      | .ok r => stripStars r
      | .error _ =>
        "Can you elaborate on the key constraints that " ++ company ++
          " faces?"
    return { s with
      messages := s.messages ++ [.ai question_text],
      understanding_question_count := count + 1,
      current_activity := "awaiting_understanding" }

/-- The fixed fallback phase evaluation substituted by `_evaluate_phase`
when extraction of the scoring output is falsy (lines 841-848). -/
def phase_eval_fallback (candidate_responses : List String) : PyVal :=
  .dict [("score", .num 7),
    ("strengths", .list [.str "Engaged with the problem"]),
    ("weaknesses", .list [.str "Could provide more depth"]),
    ("key_observations", .list [.str "Demonstrated basic understanding"]),
    ("candidate_key_responses",
      .list ((candidate_responses.take 2).map .str)),
    ("overall_comment", .str "Satisfactory performance")]

/-- `CaseStudyInterviewNodes._evaluate_phase` (lines 796-854): collects the
candidate's recent responses, always invokes the evaluation generation
(unprotected), extracts JSON, substitutes the fixed fallback on a falsy
extraction, and ensures `candidate_key_responses` is present. -/
def evaluate_phase (loads : String → Option PyVal)
    (resp : Except PyErr String) (s : InterviewState)
    (_phase_name : String) : Except PyErr PyVal := do
  let cr := candidateResponses s.messages
  let r ← resp
  let ev ← extract_json loads r
  let evaluation := if ev.truthy then ev else phase_eval_fallback cr
  let missing ← pyNotIn "candidate_key_responses" evaluation
  if missing then
    pySetItem evaluation "candidate_key_responses"
      (.list ((cr.take 2).map .str))
  else pure evaluation

/-- `CaseStudyInterviewNodes.understanding_evaluation_node` (lines 446-458):
evaluates, moves the phase to approach and resets the approach counter. -/
def understanding_evaluation_node (loads : String → Option PyVal)
    (resp : Except PyErr String) (s : InterviewState) :
    Except PyErr InterviewState := do
  let evaluation ← evaluate_phase loads resp s "understanding"
  return { s with
    understanding_evaluation := some evaluation,
    current_phase := "approach",
    approach_question_count := 0,
    approach_complete := false,
    current_activity := "awaiting_approach" }

/-- The structured workspace prompt emitted on the approach phase's first
pass (approach_node lines 499-543): a pure function of the technical flag
and the case's company name. -/
def framework_guidance (is_technical_role : Bool) (company_name : String) :
    String :=
  let g :=
    "ğŸ“Š **Approach Phase - Framework Development**\n\n    Now that we understand "
      ++ company_name ++
      "'s problem, I'd like you to **document your solution approach**.\n\n    **Please provide:**\n\n    1. **Framework Structure**: Outline your overall framework or methodology\n    - What major steps or phases would you follow?\n    - What key areas need analysis?\n    - How would you structure your approach?\n    "
  let g :=
    if is_technical_role then
      g ++ "\n    2. **Technical Approach**:\n    - What specific algorithms, models, or technical methods would you use?\n    - What data transformations or preprocessing steps are needed?\n    - **Use the CODE tab** to provide pseudocode or implementation sketches\n    - What tools/libraries would you leverage?\n\n    3. **Implementation Details**:\n    - Technical architecture and design decisions\n    - Data pipeline and processing flow\n    "
    else g
  let g :=
    g ++ "\n    " ++ (if is_technical_role then "3" else "2") ++
      ". **Implementation Plan**:\n    - What's the logical sequence of steps?\n    - What are key dependencies?\n    - What potential challenges do you foresee for "
      ++ company_name ++ "?\n    "
  let g :=
    if is_technical_role then
      g ++ "\n    ğŸ’¡ **Use the workspace tabs below to organize your approach:**\n    - **ğŸ“‹ Framework**: High-level framework and methodology\n    - **âš™ï¸ Technical Approach**: Algorithms, methods, techniques\n    - **ğŸ’» Code Editor**: Implementation code or pseudocode (optional)\n    "
    else
      g ++ "\n    ğŸ’¡ **Use the workspace to document your comprehensive framework and approach.**\n    "
  g ++ "\nTake your time to provide a comprehensive approach."

/-- `CaseStudyInterviewNodes.approach_node` (lines 462-647).  The count-0
branch builds `framework_guidance` locally and never invokes generation;
the later branches wrap their generation call in try/except. -/
def approach_node (loads : String → Option PyVal)
    (resp : Except PyErr String) (s : InterviewState) :
    Except PyErr InterviewState := do
  let tech_type := s.tech_type.getD ""
  let is_technical_role := tech_type == "Technical"
  let count := s.approach_question_count
  let company_name := PyVal.pyStr
    (← pyGetD s.case_study "company_name" (.str "the company"))
  let _problem ← pyGetD s.case_study "problem_statement" (.str "")
  let hasResp := lastHumanTruthy s.messages
  if 4 ≤ count then
    return { s with approach_complete := true,
                    current_activity := "phase_complete" }
  else if count == 0 then
    -- a conversation llm handle is created here but never invoked
    return { s with
      messages := s.messages ++
        [.ai (framework_guidance is_technical_role company_name)],
      approach_question_count := 1,
      current_activity := "awaiting_approach_structured" }
  else if count == 1 && hasResp then
    let question_text :=
      match resp with
      | .ok r => stripStars r
      | .error _ =>
        "What specific analysis techniques would you prioritize first for "
          ++ company_name ++ "?"
    return { s with
      messages := s.messages ++ [.ai question_text],
      approach_question_count := 2,
      current_activity := "awaiting_approach" }
  else if !hasResp then
    return { s with current_activity := "awaiting_approach" }
  else
    let question_text :=
      match resp with
      | .ok r => stripStars r
      | .error _ =>
        "What implementation challenges do you anticipate for " ++
          company_name ++ "?"
    return { s with
      messages := s.messages ++ [.ai question_text],
      approach_question_count := count + 1,
      current_activity := "awaiting_approach" }

/-- `CaseStudyInterviewNodes.approach_evaluation_node` (lines 649-659):
evaluates, moves the phase to followup (not final) and resets the followup
counter. -/
def approach_evaluation_node (loads : String → Option PyVal)
    (resp : Except PyErr String) (s : InterviewState) :
    Except PyErr InterviewState := do
  let evaluation ← evaluate_phase loads resp s "approach"
  return { s with
    approach_evaluation := some evaluation,
    current_phase := "followup",
    followup_question_count := 0,
    followup_complete := false,
    current_activity := "awaiting_followup" }

/-- The fallback follow-up questions keyed by count (followup_node). -/
def followupFallback (count : Nat) (company_name : String) : String :=
  match count with
  | 0 => "Based on your analysis, what are the most critical recommendations you would make to "
      ++ company_name ++ "'s leadership?"
  | 1 => "How would you approach implementing your top recommendation at "
      ++ company_name ++ "?"
  | 2 => "What specific metrics would you use to measure success for "
      ++ company_name ++ "?"
  | _ => "What would be your next step for " ++ company_name ++ "?"

/-- `CaseStudyInterviewNodes.followup_node` (lines 663-782). -/
def followup_node (loads : String → Option PyVal)
    (resp : Except PyErr String) (s : InterviewState) :
    Except PyErr InterviewState := do
  let count := s.followup_question_count
  let company_name := PyVal.pyStr
    (← pyGetD s.case_study "company_name" (.str "the company"))
  let _problem ← pyGetD s.case_study "problem_statement" (.str "")
  let hasResp := lastHumanTruthy s.messages
  -- recent_responses and the per-count focus feed only the prompt
  if 3 ≤ count then
    return { s with followup_complete := true,
                    current_activity := "phase_complete" }
  else if 0 < count && !hasResp then
    return { s with current_activity := "awaiting_followup" }
  else
    let question_text :=
      match resp with
      | .ok r => cleanFollowupText r
      | .error _ => followupFallback count company_name
    return { s with
      messages := s.messages ++ [.ai question_text],
      followup_question_count := count + 1,
      current_activity := "awaiting_followup" }

/-- `CaseStudyInterviewNodes.followup_evaluation_node` (lines 784-792). -/
def followup_evaluation_node (loads : String → Option PyVal)
    (resp : Except PyErr String) (s : InterviewState) :
    Except PyErr InterviewState := do
  let evaluation ← evaluate_phase loads resp s "followup"
  return { s with
    followup_evaluation := some evaluation,
    current_phase := "final",
    current_activity := "generating_report" }

/-- The fixed fallback final evaluation substituted by final_evaluation_node
when extraction is falsy or lacks `dimension_scores` (lines 974-1002).
Note its two dimension entries carry weights 25 and 15. -/
def final_eval_fallback (candidate_responses : List String) : PyVal :=
  .dict [
    ("overall_score", .num 7),
    ("performance_level", .str "Satisfactory"),
    ("interview_summary",
      .str "Candidate demonstrated understanding of the problem."),
    ("dimension_scores", .list [
      .dict [("dimension", .str "Domain Expertise & Technical Skills"),
        ("weight", .num 25), ("score", .num 7),
        ("justification", .str "Adequate technical knowledge"),
        ("candidate_response_excerpt",
          .str (if 3 ≤ candidate_responses.length then
              candidate_responses.getD (candidate_responses.length - 3) ""
            else "N/A"))],
      .dict [("dimension", .str "Problem-Solving Skills & Critical Thinking"),
        ("weight", .num 15), ("score", .num 7),
        ("justification", .str "Structured problem-solving approach"),
        ("candidate_response_excerpt",
          .str (if 2 ≤ candidate_responses.length then
              candidate_responses.getD (candidate_responses.length - 2) ""
            else "N/A"))]]),
    ("key_strengths",
      .list [.str "Clear communication", .str "Structured thinking"]),
    ("development_areas",
      .list [.str "Deeper analysis", .str "More specific recommendations"]),
    ("phase_breakdown", .dict [
      ("understanding", .str "Good grasp of core issues"),
      ("approach", .str "Reasonable framework proposed"),
      ("followup", .str "Handled questions adequately")]),
    ("recommended_next_steps",
      .list [.str "Practice more cases", .str "Deepen technical knowledge"])]

/-- `if not final_eval or 'dimension_scores' not in final_eval:` — the
short-circuiting fallback test of final_evaluation_node (line 973). -/
def missingDimensionScores (fe : PyVal) : Except PyErr Bool :=
  if !fe.truthy then .ok true
  else pyNotIn "dimension_scores" fe

/-- The decorated horizontal rules of the final report. -/
def reportRuleTop : String :=
  "â•”" ++ String.join (List.replicate 78 "â•") ++ "â•—"

def reportRuleBottom : String :=
  "â•š" ++ String.join (List.replicate 78 "â•") ++ "â•"

/-- One dimension section of the final report (lines 1027-1033). -/
def buildDimSection (dim : PyVal) : Except PyErr String := do
  let name ← pyItem dim "dimension"
  let weight ← pyItem dim "weight"
  let score ← pyItem dim "score"
  let just ← pyItem dim "justification"
  let excerpt ← pySlice (← pyItem dim "candidate_response_excerpt") 200
  pure ("\n    **" ++ name.pyStr ++ "** (Weight: " ++ weight.pyStr ++
    "%)\n    - Score: " ++ score.pyStr ++ "/10\n    - Justification: " ++
    just.pyStr ++ "\n    - Candidate Response: \"" ++ excerpt.pyStr ++
    "...\"\n    ")

/-- `CaseStudyInterviewNodes.final_evaluation_node` (lines 857-1062). -/
def final_evaluation_node (loads : String → Option PyVal)
    (resp : Except PyErr String) (s : InterviewState) :
    Except PyErr InterviewState := do
  let candidate_responses := s.messages.filterMap humanContent
  -- the phase evaluations and case text feed only the generation prompt
  let r ← resp
  let fe ← extract_json loads r
  let useFallback ← missingDimensionScores fe
  let final_eval :=
    if useFallback then final_eval_fallback candidate_responses else fe
  let score ← pyGetD final_eval "overall_score" (.num 7)
  let level ← pyGetD final_eval "performance_level" (.str "Satisfactory")
  let summary ← pyGetD final_eval "interview_summary" (.str "N/A")
  let report :=
    "\n    " ++ reportRuleTop ++
    "\n    ğŸ“Š FINAL INTERVIEW EVALUATION\n    " ++ reportRuleBottom ++
    "\n\n    **Overall Score:** " ++ score.pyStr ++
    "/10\n    **Performance Level:** " ++ level.pyStr ++
    "\n\n    ---\n\n    **ğŸ“ Interview Summary:**\n    " ++ summary.pyStr ++
    "\n\n    ---\n\n    **ğŸ“Š DIMENSION SCORES:**\n    "
  let dims ← pyIter (← pyGetD final_eval "dimension_scores" (.list []))
  let dimSections ← dims.mapM buildDimSection
  let report := report ++ String.join dimSections ++
    "\n---\n\n**âœ… KEY STRENGTHS:**\n"
  let ks ← pyIter (← pyGetD final_eval "key_strengths" (.list []))
  let report := report ++
    String.join (ks.map (fun v => "\nâœ“ " ++ v.pyStr)) ++
    "\n\n---\n\n**ğŸ“ˆ AREAS FOR DEVELOPMENT:**\n"
  let da ← pyIter (← pyGetD final_eval "development_areas" (.list []))
  let report := report ++
    String.join (da.map (fun v => "\nâš  " ++ v.pyStr)) ++
    "\n\n---\n\n**ğŸ” PHASE BREAKDOWN:**\n"
  let breakdown ← pyGetD final_eval "phase_breakdown" (.dict [])
  let bu ← pyGetD breakdown "understanding" (.str "N/A")
  let ba ← pyGetD breakdown "approach" (.str "N/A")
  let bf ← pyGetD breakdown "followup" (.str "N/A")
  let report := report ++
    "\n**Understanding Phase:** " ++ bu.pyStr ++
    "\n**Approach Phase:** " ++ ba.pyStr ++
    "\n**Follow-up Phase:** " ++ bf.pyStr ++
    "\n\n---\n\n**ğŸ¯ RECOMMENDED NEXT STEPS:**\n"
  let steps ← pyIter (← pyGetD final_eval "recommended_next_steps" (.list []))
  let report := report ++
    String.join (steps.map (fun v => "\nâ†’ " ++ v.pyStr)) ++
    "\n\n" ++ reportRuleTop ++
    "\n                       Thank you for participating!\n" ++
    reportRuleBottom ++ "\n"
  return { s with
    final_evaluation := some final_eval,
    messages := s.messages ++ [.ai report],
    interview_complete := true,
    current_activity := "complete" }

/-- `after_classification` router (graph_builder.py lines 30-34).  Note it
reads the `mcq_answers` key (which no writer ever sets), not the
`classification_answers` key the UI stores answers under. -/
def after_classification (s : InterviewState) : String :=
  match s.mcq_answers with
  | some l => if !l.isEmpty && 3 ≤ l.length then "process" else "wait"
  | Option.none => "wait"

/-- `after_case_generation` router (graph_builder.py lines 45-60). -/
def after_case_generation (s : InterviewState) : String :=
  if s.current_activity == "awaiting_understanding" then
    if s.understanding_question_count == 0 then "wait" else "continue"
  else "wait"

/-- `should_continue_understanding` router (graph_builder.py lines 73-86). -/
def should_continue_understanding (s : InterviewState) : String :=
  if s.understanding_complete then "evaluate"
  else if s.current_activity == "awaiting_understanding" then "wait"
  else "continue"

/-- `should_continue_approach` router (graph_builder.py lines 103-116). -/
def should_continue_approach (s : InterviewState) : String :=
  if s.approach_complete then "evaluate"
  else if s.current_activity == "awaiting_approach" then "wait"
  else "continue"

/-- `should_continue_followup` router (graph_builder.py lines 133-146). -/
def should_continue_followup (s : InterviewState) : String :=
  if s.followup_complete then "evaluate"
  else if s.current_activity == "awaiting_followup" then "wait"
  else "continue"

/-- One engine pass: the application of one graph node (with its oracles),
or the driver appending the candidate's message before streaming
(`process_graph_stream(trigger_message)` in app.py). -/
inductive Pass where
  | genMCQ (loads : String → Option PyVal) (resp : Except PyErr String)
  | processMCQ (loads : String → Option PyVal) (resp : Except PyErr String)
  | genCase (loads : String → Option PyVal) (resp : Except PyErr String)
      (now : ℚ)
  | understanding (loads : String → Option PyVal) (resp : Except PyErr String)
  | understandingEval (loads : String → Option PyVal)
      (resp : Except PyErr String)
  | approach (loads : String → Option PyVal) (resp : Except PyErr String)
  | approachEval (loads : String → Option PyVal) (resp : Except PyErr String)
  | followup (loads : String → Option PyVal) (resp : Except PyErr String)
  | followupEval (loads : String → Option PyVal) (resp : Except PyErr String)
  | finalEval (loads : String → Option PyVal) (resp : Except PyErr String)
  | userMessage (text : String)

/-- Apply one engine pass to a state. -/
def Pass.apply : Pass → InterviewState → Except PyErr InterviewState
  | .genMCQ loads resp, s => generate_mcq_node loads resp s
  | .processMCQ loads resp, s => process_mcq_answers_node loads resp s
  | .genCase loads resp now, s => generate_case_node loads resp now s
  | .understanding loads resp, s => understanding_node loads resp s
  | .understandingEval loads resp, s =>
      understanding_evaluation_node loads resp s
  | .approach loads resp, s => approach_node loads resp s
  | .approachEval loads resp, s => approach_evaluation_node loads resp s
  | .followup loads resp, s => followup_node loads resp s
  | .followupEval loads resp, s => followup_evaluation_node loads resp s
  | .finalEval loads resp, s => final_evaluation_node loads resp s
  | .userMessage t, s => .ok { s with messages := s.messages ++ [.human t] }

/-- Whether a pass is the case-generation node. -/
def Pass.isGenCase : Pass → Bool
  | .genCase .. => true
  | _ => false

/-- Whether a pass is the understanding evaluation node. -/
def Pass.isUnderstandingEval : Pass → Bool
  | .understandingEval .. => true
  | _ => false

/-- Modelled from the spec: the fixed non-overlapping threshold map that the
spec says derives `performance_level` from `overall_score`. -/
def spec_performance_level (score : ℚ) : String :=
  if 9 ≤ score then "Outstanding"
  else if 7 ≤ score then "Strong"
  else if 5 ≤ score then "Competent"
  else if 3 ≤ score then "Developing"
  else "Needs Improvement"

/-- The `weight` entries of a final evaluation's `dimension_scores`
(non-numeric or absent weights count 0). -/
def dimWeights (v : PyVal) : List ℚ :=
  match v with
  | .dict kv =>
    match dictGet kv "dimension_scores" with
    | some (.list l) =>
      l.map (fun d =>
        match d with
        | .dict dkv =>
          match dictGet dkv "weight" with
          | some (.num q) => q
          | _ => 0
        | _ => 0)
    | _ => []
  | _ => []

/-- The `score` field of a phase evaluation, when numeric. -/
def evalScore (v : PyVal) : Option ℚ :=
  match v with
  | .dict kv =>
    match dictGet kv "score" with
    | some (.num q) => some q
    | _ => Option.none
  | _ => Option.none

/-- The `key_observations` field of a phase evaluation, when a list. -/
def evalKeyObservations (v : PyVal) : Option (List PyVal) :=
  match v with
  | .dict kv =>
    match dictGet kv "key_observations" with
    | some (.list l) => some l
    | _ => Option.none
  | _ => Option.none

/-- The `overall_score` and `performance_level` of a final evaluation. -/
def overallScoreLevel (v : PyVal) : Option (ℚ × String) :=
  match v with
  | .dict kv =>
    match dictGet kv "overall_score", dictGet kv "performance_level" with
    | some (.num q), some (.str l) => some (q, l)
    | _, _ => Option.none
  | _ => Option.none

/-- Destructing a successful monadic bind in `Except`. -/
theorem bind_ok {ε α β : Type} {x : Except ε α} {f : α → Except ε β} {b : β}
    (h : (x >>= f) = .ok b) : ∃ a, x = .ok a ∧ f a = .ok b := by
  cases x with
  | ok a => exact ⟨a, rfl, h⟩
  | error e => simp [Bind.bind, Except.bind] at h

/-- Reduction of a bind whose first component is `ok`. -/
theorem ok_bind {e a b : Type} (x : a) (f : a → Except e b) :
    (Except.ok x >>= f) = f x := rfl

/-- Reduction of a bind whose first component is `error`. -/
theorem error_bind {e a b : Type} (x : e) (f : a → Except e b) :
    ((Except.error x : Except e a) >>= f) = Except.error x := rfl

/-- A successful `pure` in `Except` determines its value. -/
theorem pure_ok {ε α : Type} {a b : α}
    (h : (pure a : Except ε α) = .ok b) : a = b := by
  simpa [pure, Except.pure] using h

/-- Fields characterisation of a successful generate_mcq_node pass: the
phase and both question counters are untouched. -/
theorem generate_mcq_node_step {loads resp s s'}
    (h : generate_mcq_node loads resp s = .ok s') :
    s'.current_phase = s.current_phase ∧
    s'.understanding_question_count = s.understanding_question_count ∧
    s'.approach_question_count = s.approach_question_count := by
  unfold generate_mcq_node at h
  split at h
  · exact (pure_ok h) ▸ ⟨rfl, rfl, rfl⟩
  · obtain ⟨r, -, h⟩ := bind_ok h
    obtain ⟨qd, -, h⟩ := bind_ok h
    obtain ⟨q, -, h⟩ := bind_ok h
    obtain ⟨msg, -, h⟩ := bind_ok h
    obtain ⟨msg2, -, h⟩ := bind_ok h
    exact (pure_ok h) ▸ ⟨rfl, rfl, rfl⟩

/-- Fields characterisation of a successful process_mcq_answers_node pass:
phase and question counters untouched. -/
theorem process_mcq_answers_node_step {loads resp s s'}
    (h : process_mcq_answers_node loads resp s = .ok s') :
    s'.current_phase = s.current_phase ∧
    s'.understanding_question_count = s.understanding_question_count ∧
    s'.approach_question_count = s.approach_question_count := by
  unfold process_mcq_answers_node at h
  repeat' first
  | (obtain ⟨_, -, h⟩ := bind_ok h)
  | (split at h)
  | (dsimp only [] at h)
  all_goals exact (pure_ok h) ▸ ⟨rfl, rfl, rfl⟩

/-- Fields characterisation of a successful generate_case_node pass: the
phase is set to understanding in both branches; the understanding counter is
untouched by the guard branch and reset to 0 by the generation branch; the
approach counter is untouched. -/
theorem generate_case_node_step {loads resp now s s'}
    (h : generate_case_node loads resp now s = .ok s') :
    s'.current_phase = "understanding" ∧
    (s'.understanding_question_count = s.understanding_question_count ∨
      s'.understanding_question_count = 0) ∧
    s'.approach_question_count = s.approach_question_count := by
  unfold generate_case_node at h
  repeat' first
  | (obtain ⟨_, -, h⟩ := bind_ok h)
  | (split at h)
  | (dsimp only [] at h)
  all_goals first
  | exact (pure_ok h) ▸ ⟨rfl, Or.inl rfl, rfl⟩
  | exact (pure_ok h) ▸ ⟨rfl, Or.inr rfl, rfl⟩

/-- Fields characterisation of a successful understanding_node pass: phase
and approach counter untouched; the understanding counter is unchanged or
incremented by exactly one. -/
theorem understanding_node_step (loads : String → Option PyVal)
    (resp : Except PyErr String) (s s' : InterviewState)
    (h : understanding_node loads resp s = .ok s') :
    s'.current_phase = s.current_phase ∧
    (s'.understanding_question_count = s.understanding_question_count ∨
      s'.understanding_question_count = s.understanding_question_count + 1) ∧
    s'.approach_question_count = s.approach_question_count := by
  unfold understanding_node at h
  repeat' first
  | (obtain ⟨_, -, h⟩ := bind_ok h)
  | (split at h)
  | (dsimp only [] at h)
  all_goals first
  | exact (pure_ok h) ▸ ⟨rfl, Or.inl rfl, rfl⟩
  | exact (pure_ok h) ▸ ⟨rfl, Or.inr rfl, rfl⟩
  | (refine (pure_ok h) ▸ ⟨rfl, Or.inr ?_, rfl⟩; simp_all)

/-- Fields characterisation of a successful understanding_evaluation_node
pass: phase set to approach, understanding counter untouched, approach
counter reset to 0. -/
theorem understanding_evaluation_node_step {loads resp s s'}
    (h : understanding_evaluation_node loads resp s = .ok s') :
    s'.current_phase = "approach" ∧
    s'.understanding_question_count = s.understanding_question_count ∧
    s'.approach_question_count = 0 := by
  unfold understanding_evaluation_node at h
  obtain ⟨ev, -, h⟩ := bind_ok h
  exact (pure_ok h) ▸ ⟨rfl, rfl, rfl⟩

/-- Fields characterisation of a successful approach_node pass: phase and
understanding counter untouched; the approach counter is unchanged or
incremented by exactly one. -/
theorem approach_node_step (loads : String → Option PyVal)
    (resp : Except PyErr String) (s s' : InterviewState)
    (h : approach_node loads resp s = .ok s') :
    s'.current_phase = s.current_phase ∧
    s'.understanding_question_count = s.understanding_question_count ∧
    (s'.approach_question_count = s.approach_question_count ∨
      s'.approach_question_count = s.approach_question_count + 1) := by
  unfold approach_node at h
  repeat' first
  | (obtain ⟨_, -, h⟩ := bind_ok h)
  | (split at h)
  | (dsimp only [] at h)
  all_goals first
  | exact (pure_ok h) ▸ ⟨rfl, rfl, Or.inl rfl⟩
  | exact (pure_ok h) ▸ ⟨rfl, rfl, Or.inr rfl⟩
  | (refine (pure_ok h) ▸ ⟨rfl, rfl, Or.inr ?_⟩; simp_all)

/-- Fields characterisation of a successful approach_evaluation_node pass:
phase set to followup, both claimed counters untouched. -/
theorem approach_evaluation_node_step {loads resp s s'}
    (h : approach_evaluation_node loads resp s = .ok s') :
    s'.current_phase = "followup" ∧
    s'.understanding_question_count = s.understanding_question_count ∧
    s'.approach_question_count = s.approach_question_count := by
  unfold approach_evaluation_node at h
  obtain ⟨ev, -, h⟩ := bind_ok h
  exact (pure_ok h) ▸ ⟨rfl, rfl, rfl⟩

/-- Fields characterisation of a successful followup_node pass: phase and
both claimed counters untouched. -/
theorem followup_node_step (loads : String → Option PyVal)
    (resp : Except PyErr String) (s s' : InterviewState)
    (h : followup_node loads resp s = .ok s') :
    s'.current_phase = s.current_phase ∧
    s'.understanding_question_count = s.understanding_question_count ∧
    s'.approach_question_count = s.approach_question_count := by
  unfold followup_node at h
  repeat' first
  | (obtain ⟨_, -, h⟩ := bind_ok h)
  | (split at h)
  | (dsimp only [] at h)
  all_goals exact (pure_ok h) ▸ ⟨rfl, rfl, rfl⟩

/-- Fields characterisation of a successful followup_evaluation_node pass:
phase set to final, both claimed counters untouched. -/
theorem followup_evaluation_node_step {loads resp s s'}
    (h : followup_evaluation_node loads resp s = .ok s') :
    s'.current_phase = "final" ∧
    s'.understanding_question_count = s.understanding_question_count ∧
    s'.approach_question_count = s.approach_question_count := by
  unfold followup_evaluation_node at h
  obtain ⟨ev, -, h⟩ := bind_ok h
  exact (pure_ok h) ▸ ⟨rfl, rfl, rfl⟩

/-- Fields characterisation of a successful final_evaluation_node pass:
phase and both claimed counters untouched. -/
theorem final_evaluation_node_step {loads resp s s'}
    (h : final_evaluation_node loads resp s = .ok s') :
    s'.current_phase = s.current_phase ∧
    s'.understanding_question_count = s.understanding_question_count ∧
    s'.approach_question_count = s.approach_question_count := by
  unfold final_evaluation_node at h
  repeat' first
  | (obtain ⟨_, -, h⟩ := bind_ok h)
  | (split at h)
  | (dsimp only [] at h)
  all_goals exact (pure_ok h) ▸ ⟨rfl, rfl, rfl⟩

/-- A `json.loads` oracle that always fails (models unparseable text). -/
def noLoads : String → Option PyVal := fun _ => Option.none

/-- A generated case document with a non-empty company name. -/
def acmeCase : PyVal :=
  .dict [("company_name", .str "Acme Analytics"),
    ("problem_statement", .str "Reduce churn")]

/-- A state sitting at case generation with the case already generated. -/
def c1_state : InterviewState :=
  { (initial_interview_state "Dana" "Data Scientist" ["Python"]) with
    current_phase := "case_gen", current_activity := "generating_case",
    mcq_completed := true, case_study := acmeCase }

/-- The only update the guard branch of generate_case_node returns: the
input state with `current_phase` set to understanding and
`current_activity` set to awaiting_understanding, all other fields kept. -/
def caseSkipUpdate (s : InterviewState) : InterviewState :=
  { s with current_phase := "understanding",
           current_activity := "awaiting_understanding" }

/-- C1: Idempotence of case generation.  When `case_study` already carries a
truthy `company_name` (the guard), generate_case_node returns — for every
generation and parsing oracle, i.e. performing no generation — exactly the
input state with only `current_phase` set to understanding and
`current_activity` set to awaiting_understanding; every other field,
`case_study` included, is unchanged.  Invoking it a second time returns the
same state again, so two invocations change `case_study` not at all and
move the phase only once (to understanding). -/
theorem generate_case_idempotent
    (loads1 loads2 : String → Option PyVal)
    (resp1 resp2 : Except PyErr String) (now1 now2 : ℚ)
    (s : InterviewState) (h : caseGuard s = Except.ok true) :
    generate_case_node loads1 resp1 now1 s = Except.ok (caseSkipUpdate s) ∧
    generate_case_node loads2 resp2 now2 (caseSkipUpdate s) =
      Except.ok (caseSkipUpdate s) ∧
    (caseSkipUpdate s).case_study = s.case_study ∧
    (caseSkipUpdate s).current_phase = "understanding" := by
  have hg2 : caseGuard (caseSkipUpdate s) = Except.ok true := h
  refine ⟨?_, ?_, rfl, rfl⟩
  · unfold generate_case_node
    rw [h]
    rfl
  · unfold generate_case_node
    rw [hg2]
    rfl

/-- Witness for C1 at a concrete state whose case is already generated; the
generation oracle is even a raising one, so no generation can have been
consulted. -/
theorem generate_case_idempotent_witness :
    caseGuard c1_state = Except.ok true ∧
    generate_case_node noLoads (Except.error .llmError) 0 c1_state =
      Except.ok (caseSkipUpdate c1_state) :=
  ⟨rfl, (generate_case_idempotent noLoads noLoads (Except.error .llmError)
    (Except.error .llmError) 0 0 c1_state rfl).1⟩

/-- C6: the claim that `extract_json` never raises is false on the code.
The source pattern for strategies 1 and 2 is the mangled literal
`r'``````'` — six backticks with no capture group — so on any text
containing six consecutive backticks, `re.search` succeeds and
`code_block.group(1)` raises `IndexError` (only `json.JSONDecodeError` is
caught).  This holds for every `json.loads` behaviour, since the exception
fires before any parse is attempted. -/
theorem extract_json_six_backticks_raises (loads : String → Option PyVal) :
    extract_json loads "``````" = Except.error PyErr.indexError := by
  rfl

/-- A state that has reached the final-evaluation stage. -/
def c2_state : InterviewState :=
  { (initial_interview_state "Dana" "Data Scientist" ["Python"]) with
    current_phase := "final", current_activity := "generating_report",
    case_study := acmeCase }

/-- C2: dimension weights of a produced FinalEvaluation do not always sum
to 100.  When extraction of the generation output fails (here: an empty
response string, which `extract_json` maps to the empty dict), the fallback
FinalEvaluation is produced, and its two dimension entries carry weights 25
and 15, summing to 40 — not 100 as the spec's invariant (and the prompt's
own 25+15+15+15+15+15 schema) requires. -/
theorem final_fallback_weights_sum_forty :
    (final_evaluation_node noLoads (Except.ok "") c2_state).map
      (fun s => s.final_evaluation.map dimWeights) =
      Except.ok (some [25, 15]) ∧
    ([25, 15] : List ℚ).sum = 40 ∧ (40 : ℚ) ≠ 100 := by
  refine ⟨rfl, by norm_num, by norm_num⟩

/-- Another state that has reached the final-evaluation stage. -/
def c7_state : InterviewState :=
  { (initial_interview_state "Riley" "Analyst" ["SQL"]) with
    current_phase := "final", current_activity := "generating_report",
    case_study := acmeCase }

/-- C7 counterexample: the fallback FinalEvaluation carries
`overall_score = 7.0` with `performance_level = "Satisfactory"`, whereas
the claim's fixed threshold map sends a score of 7 to "Strong" (and does
not even contain "Satisfactory").  So `performance_level` is not the
claimed deterministic function of `overall_score`. -/
theorem performance_level_fallback_counterexample :
    (final_evaluation_node noLoads (Except.ok "") c7_state).map
      (fun s => s.final_evaluation.bind overallScoreLevel) =
      Except.ok (some (7, "Satisfactory")) ∧
    spec_performance_level 7 = "Strong" ∧
    ("Satisfactory" : String) ≠ "Strong" := by
  refine ⟨rfl, ?_, by decide⟩
  norm_num [spec_performance_level]

/-- C7 amended: no threshold mapping exists in the code.  On the extracted
path the produced FinalEvaluation is the extracted dict verbatim
(`performance_level` is whatever generation returned, never recomputed from
`overall_score`); on the fallback path it is the fixed fallback whose level
is the constant "Satisfactory" with score 7. -/
theorem performance_level_passthrough :
    (∀ (loads : String → Option PyVal) (rs : String)
        (s s' : InterviewState) (d : PyVal),
      extract_json loads rs = Except.ok d → d.truthy = true →
      pyNotIn "dimension_scores" d = Except.ok false →
      final_evaluation_node loads (Except.ok rs) s = Except.ok s' →
      s'.final_evaluation = some d) ∧
    (∀ (loads : String → Option PyVal) (rs : String)
        (s s' : InterviewState),
      extract_json loads rs = Except.ok (.dict []) →
      final_evaluation_node loads (Except.ok rs) s = Except.ok s' →
      s'.final_evaluation =
        some (final_eval_fallback (s.messages.filterMap humanContent)) ∧
      overallScoreLevel
        (final_eval_fallback (s.messages.filterMap humanContent)) =
        some (7, "Satisfactory")) := by
  constructor
  · intro loads rs s s' d hex ht hni h
    unfold final_evaluation_node at h
    obtain ⟨r, hr, h⟩ := bind_ok h
    obtain rfl := (Except.ok.inj hr)
    rw [hex] at h
    obtain ⟨fe, hfe, h⟩ := bind_ok h
    obtain rfl := (Except.ok.inj hfe)
    have hmd : missingDimensionScores d = Except.ok false := by
      simp [missingDimensionScores, ht, hni]
    rw [hmd] at h
    obtain ⟨uf, huf, h⟩ := bind_ok h
    obtain rfl := (Except.ok.inj huf)
    repeat' first
    | (obtain ⟨_, -, h⟩ := bind_ok h)
    | (dsimp only [] at h)
    obtain rfl := pure_ok h
    simp
  · intro loads rs s s' hex h
    unfold final_evaluation_node at h
    obtain ⟨r, hr, h⟩ := bind_ok h
    obtain rfl := (Except.ok.inj hr)
    rw [hex] at h
    obtain ⟨fe, hfe, h⟩ := bind_ok h
    obtain rfl := (Except.ok.inj hfe)
    have hmd : missingDimensionScores (.dict []) = Except.ok true := by
      simp [missingDimensionScores, PyVal.truthy]
    rw [hmd] at h
    obtain ⟨uf, huf, h⟩ := bind_ok h
    obtain rfl := (Except.ok.inj huf)
    repeat' first
    | (obtain ⟨_, -, h⟩ := bind_ok h)
    | (dsimp only [] at h)
    obtain rfl := pure_ok h
    exact ⟨by simp, rfl⟩

/-- An extracted final evaluation whose level contradicts the claimed
threshold map (score 2 with level "Outstanding"). -/
def c7w_dict : PyVal :=
  .dict [("dimension_scores", PyVal.list []), ("overall_score", PyVal.num 2),
    ("performance_level", PyVal.str "Outstanding")]

def c7w_loads : String → Option PyVal := fun _ => some c7w_dict

def c7w_out : InterviewState :=
  ((final_evaluation_node c7w_loads (Except.ok "\x7b\x7d")
    c7_state).toOption).getD c7_state

/-- Witness for C7's amended theorem: a concrete extracted evaluation with
`overall_score = 2` and `performance_level = "Outstanding"` is stored
verbatim — no threshold map intervenes. -/
theorem performance_level_passthrough_witness :
    c7w_out.final_evaluation = some c7w_dict :=
  performance_level_passthrough.1 c7w_loads "\x7b\x7d" c7_state c7w_out
    c7w_dict rfl rfl rfl rfl

/-- A state with no candidate (human) messages at all. -/
def c5_state : InterviewState :=
  { (initial_interview_state "Jo" "Data Analyst" []) with
    current_phase := "understanding", case_study := acmeCase,
    understanding_question_count := 3, understanding_complete := true }

/-- C5 counterexample: on a transcript with zero candidate responses the
phase evaluator still invokes generation (a raising generation call
propagates), and when extraction of the response fails it returns the fixed
fallback evaluation with score 7 — not the claimed error-shaped score-0
"no data" evaluation. -/
theorem evaluate_phase_empty_counterexample :
    candidateResponses c5_state.messages = [] ∧
    (evaluate_phase noLoads (Except.ok "") c5_state "understanding").map
      evalScore = Except.ok (some 7) ∧
    (7 : ℚ) ≠ 0 ∧
    evaluate_phase noLoads (Except.error .llmError) c5_state
      "understanding" = Except.error .llmError := by
  refine ⟨rfl, rfl, by norm_num, rfl⟩

/-- C5 amended: `_evaluate_phase` has no degenerate-input policy.  For a
state whose transcript yields zero candidate responses it still invokes
generation (an erroring generation call propagates as an exception), and
when the response's extraction yields the empty mapping it returns the
fixed fallback evaluation: score 7.0, non-empty `key_observations`
reading "Demonstrated basic understanding", and empty
`candidate_key_responses`. -/
theorem evaluate_phase_empty_fallback
    (loads : String → Option PyVal) (rs : String) (s : InterviewState)
    (ph : String)
    (hno : candidateResponses s.messages = [])
    (hex : extract_json loads rs = Except.ok (.dict [])) :
    evaluate_phase loads (Except.ok rs) s ph =
      Except.ok (phase_eval_fallback []) ∧
    evalScore (phase_eval_fallback []) = some 7 ∧
    evalKeyObservations (phase_eval_fallback []) =
      some [PyVal.str "Demonstrated basic understanding"] ∧
    (∀ e : PyErr, evaluate_phase loads (Except.error e) s ph =
      Except.error e) := by
  refine ⟨?_, rfl, rfl, fun e => rfl⟩
  unfold evaluate_phase
  rw [hno, ok_bind, hex, ok_bind]
  rfl

/-- Witness for C5's amended theorem at a concrete empty transcript with an
empty (unparseable) generation response. -/
theorem evaluate_phase_empty_fallback_witness :
    evaluate_phase noLoads (Except.ok "") c5_state "understanding" =
      Except.ok (phase_eval_fallback []) :=
  (evaluate_phase_empty_fallback noLoads "" c5_state "understanding"
    rfl rfl).1

/-- A classification state holding only two answers. -/
def c8_state : InterviewState :=
  { (initial_interview_state "Dana" "Data Scientist" ["Python"]) with
    classification_answers := ["Option A", "Option B"],
    mcq_answers := some ["Option A", "Option B"] }

/-- C8 counterexample: invoking the MCQ-answer processing node with only
two answers is not a no-op — it runs interpretation regardless and sets
all four classification fields (here, with an unparseable response, to the
string "None") and flips `mcq_completed`. -/
theorem process_mcq_two_answers_counterexample :
    c8_state.classification_answers.length = 2 ∧
    (c8_state.mcq_answers.getD []).length = 2 ∧
    c8_state.domain = Option.none ∧
    (process_mcq_answers_node noLoads (Except.ok "") c8_state).map
      (fun s => (s.domain, s.industry, s.case_type, s.tech_type,
        s.mcq_completed)) =
      Except.ok (some "None", some "None", some "None", some "None", true) :=
  ⟨rfl, rfl, rfl, rfl⟩

/-- C8 amended: the router `after_classification` routes to MCQ processing
exactly when the state's `mcq_answers` key (not `classification_answers`,
and with a `≥ 3` rather than `== 3` test) holds at least three entries; and
`process_mcq_answers_node` itself has no answer-count guard: whenever it
succeeds it has set `mcq_completed` and all four classification fields,
regardless of how many answers are present. -/
theorem mcq_routing_and_no_answer_guard :
    (∀ s : InterviewState, after_classification s = "process" ↔
      3 ≤ (s.mcq_answers.getD []).length) ∧
    (∀ (loads : String → Option PyVal) (resp : Except PyErr String)
        (s s' : InterviewState),
      process_mcq_answers_node loads resp s = Except.ok s' →
      s'.mcq_completed = true ∧ s'.domain.isSome ∧ s'.industry.isSome ∧
        s'.case_type.isSome ∧ s'.tech_type.isSome ∧
        s'.current_activity = "generating_case") := by
  constructor
  · intro s
    unfold after_classification
    cases hm : s.mcq_answers with
    | none => simp
    | some l =>
      cases l with
      | nil => simp
      | cons a as =>
        simp only [List.isEmpty_cons, Bool.not_false, Bool.true_and,
          Option.getD_some]
        split
        · simp_all
        · simp_all
  · intro loads resp s s' h
    unfold process_mcq_answers_node at h
    repeat' first
    | (obtain ⟨_, -, h⟩ := bind_ok h)
    | (dsimp only [] at h)
    obtain rfl := pure_ok h
    exact ⟨rfl, rfl, rfl, rfl, rfl, rfl⟩

/-- A state whose `mcq_answers` key holds four entries. -/
def c8w_state : InterviewState :=
  { (initial_interview_state "Dana" "Data Scientist" ["Python"]) with
    classification_answers := ["A", "B", "C", "D"],
    mcq_answers := some ["A", "B", "C", "D"] }

def c8w_out : InterviewState :=
  ((process_mcq_answers_node noLoads (Except.ok "")
    c8_state).toOption).getD c8_state

/-- Witness for C8's amended theorem: the router fires with four answers
(not exactly three), and a successful processing pass on the two-answer
state has set `mcq_completed`. -/
theorem mcq_routing_and_no_answer_guard_witness :
    after_classification c8w_state = "process" ∧
    (c8w_state.mcq_answers.getD []).length = 4 ∧
    c8w_out.mcq_completed = true ∧ c8w_out.domain.isSome = true :=
  ⟨(mcq_routing_and_no_answer_guard.1 c8w_state).mpr (by decide), rfl,
    (mcq_routing_and_no_answer_guard.2 noLoads (Except.ok "") c8_state
      c8w_out rfl).1,
    (mcq_routing_and_no_answer_guard.2 noLoads (Except.ok "") c8_state
      c8w_out rfl).2.1⟩

/-- A state at the end of the approach phase. -/
def c3_state : InterviewState :=
  { (initial_interview_state "Dana" "Data Scientist" ["Python"]) with
    current_phase := "approach", current_activity := "phase_complete",
    case_study := acmeCase, understanding_question_count := 3,
    understanding_complete := true, approach_question_count := 4,
    approach_complete := true }

/-- C3 counterexample: when the approach phase completes, the router sends
the state to the approach Phase Evaluator — which sets `current_phase` to
"followup", not "final".  "followup" is not even a member of the claimed
phase enum. -/
theorem approach_evaluation_sets_followup_phase :
    should_continue_approach c3_state = "evaluate" ∧
    c3_state.current_phase = "approach" ∧
    (approach_evaluation_node noLoads (Except.ok "") c3_state).map
      (fun s => s.current_phase) = Except.ok "followup" ∧
    ("followup" : String) ≠ "final" :=
  ⟨rfl, rfl, rfl, by decide⟩

/-- C3 amended: every engine pass either leaves `current_phase` unchanged
or sets it to one of the fixed constants understanding / approach /
followup / final (generate_case_node always sets understanding — even from
a later phase, which would be a regression, not an advance); on approach
completion the router routes to the approach evaluator, which always sets
the phase to followup; only the followup evaluator sets it to final. -/
theorem phase_transition_structure :
    (∀ (p : Pass) (s s' : InterviewState), p.apply s = Except.ok s' →
      s'.current_phase = s.current_phase ∨
      s'.current_phase = "understanding" ∨
      s'.current_phase = "approach" ∨
      s'.current_phase = "followup" ∨
      s'.current_phase = "final") ∧
    (∀ (loads : String → Option PyVal) (resp : Except PyErr String)
        (t t' : InterviewState),
      approach_evaluation_node loads resp t = Except.ok t' →
      t'.current_phase = "followup") ∧
    (∀ (loads : String → Option PyVal) (resp : Except PyErr String)
        (t t' : InterviewState),
      followup_evaluation_node loads resp t = Except.ok t' →
      t'.current_phase = "final") ∧
    (∀ t : InterviewState, t.approach_complete = true →
      should_continue_approach t = "evaluate") := by
  refine ⟨?_, ?_, ?_, ?_⟩
  · intro p s s' h
    cases p with
    | genMCQ loads resp => exact Or.inl (generate_mcq_node_step h).1
    | processMCQ loads resp =>
      exact Or.inl (process_mcq_answers_node_step h).1
    | genCase loads resp now =>
      exact Or.inr (Or.inl (generate_case_node_step h).1)
    | understanding loads resp =>
      exact Or.inl (understanding_node_step loads resp s s' h).1
    | understandingEval loads resp =>
      exact Or.inr (Or.inr (Or.inl (understanding_evaluation_node_step h).1))
    | approach loads resp =>
      exact Or.inl (approach_node_step loads resp s s' h).1
    | approachEval loads resp =>
      exact Or.inr (Or.inr (Or.inr (Or.inl
        (approach_evaluation_node_step h).1)))
    | followup loads resp =>
      exact Or.inl (followup_node_step loads resp s s' h).1
    | followupEval loads resp =>
      exact Or.inr (Or.inr (Or.inr (Or.inr
        (followup_evaluation_node_step h).1)))
    | finalEval loads resp => exact Or.inl (final_evaluation_node_step h).1
    | userMessage t => exact Or.inl ((Except.ok.inj h) ▸ rfl)
  · intro loads resp t t' h
    exact (approach_evaluation_node_step h).1
  · intro loads resp t t' h
    exact (followup_evaluation_node_step h).1
  · intro t ht
    unfold should_continue_approach
    rw [ht]
    rfl

def c3w_out : InterviewState :=
  ((approach_evaluation_node noLoads (Except.ok "")
    c3_state).toOption).getD c3_state

/-- Witness for C3's amended theorem at the concrete completed-approach
state. -/
theorem phase_transition_structure_witness :
    should_continue_approach c3_state = "evaluate" ∧
    c3w_out.current_phase = "followup" :=
  ⟨phase_transition_structure.2.2.2 c3_state rfl,
    phase_transition_structure.2.1 noLoads (Except.ok "") c3_state
      c3w_out rfl⟩

/-- Shared helper: on any state with `approach_question_count = 0` and a
dict-valued case, approach_node emits the locally built structured
workspace prompt, sets the counter to 1 and the activity to
awaiting_approach_structured — with no other change and no use of either
oracle. -/
theorem approach_first_pass (loads : String → Option PyVal)
    (resp : Except PyErr String) (s : InterviewState)
    (kv : List (String × PyVal))
    (h0 : s.approach_question_count = 0) (hd : s.case_study = .dict kv) :
    approach_node loads resp s = Except.ok { s with
      messages := s.messages ++ [.ai (framework_guidance
        (s.tech_type.getD "" == "Technical")
        (((dictGet kv "company_name").getD (.str "the company")).pyStr))],
      approach_question_count := 1,
      current_activity := "awaiting_approach_structured" } := by
  unfold approach_node
  rw [hd, h0]
  rw [show pyGetD (PyVal.dict kv) "company_name" (PyVal.str "the company") =
    Except.ok ((dictGet kv "company_name").getD (.str "the company"))
    from rfl, ok_bind]
  rw [show pyGetD (PyVal.dict kv) "problem_statement" (PyVal.str "") =
    Except.ok ((dictGet kv "problem_statement").getD (.str "")) from rfl,
    ok_bind]
  norm_num
  rw [← hd]
  rfl

/-- A state entering the approach phase (count 0, no pending response). -/
def c4_state : InterviewState :=
  { (initial_interview_state "Dana" "Data Scientist" ["Python"]) with
    current_phase := "approach", current_activity := "awaiting_approach",
    case_study := acmeCase, understanding_question_count := 3,
    understanding_complete := true }

/-- C4 counterexample: in the approach phase with count 0 and no pending
human response, one engine pass emits the structured workspace prompt but
does **not** leave the counter at 0 — it sets `approach_question_count`
to 1. -/
theorem approach_first_pass_count_counterexample :
    c4_state.approach_question_count = 0 ∧
    lastHumanTruthy c4_state.messages = false ∧
    (approach_node noLoads (Except.ok "") c4_state).map
      (fun s => s.approach_question_count) = Except.ok 1 ∧
    (1 : Nat) ≠ 0 :=
  ⟨rfl, rfl, rfl, by decide⟩

/-- C4 amended: for every state in the approach phase with count 0 and no
pending human response, one engine pass emits the structured workspace
prompt (the locally built `framework_guidance` text) and sets
`approach_question_count` to 1 (it increments the counter rather than
leaving it at 0); the activity becomes awaiting_approach_structured. -/
theorem approach_first_pass_sets_count_one
    (loads : String → Option PyVal) (resp : Except PyErr String)
    (s : InterviewState) (kv : List (String × PyVal))
    (h0 : s.approach_question_count = 0) (hd : s.case_study = .dict kv)
    (hnr : lastHumanTruthy s.messages = false) :
    approach_node loads resp s = Except.ok { s with
      messages := s.messages ++ [.ai (framework_guidance
        (s.tech_type.getD "" == "Technical")
        (((dictGet kv "company_name").getD (.str "the company")).pyStr))],
      approach_question_count := 1,
      current_activity := "awaiting_approach_structured" } :=
  approach_first_pass loads resp s kv h0 hd

/-- Witness for C4's amended theorem at the concrete approach-entry state. -/
theorem approach_first_pass_sets_count_one_witness :
    (approach_node noLoads (Except.ok "") c4_state).map
      (fun s => (s.approach_question_count, s.current_activity)) =
      Except.ok (1, "awaiting_approach_structured") := by
  rw [approach_first_pass_sets_count_one noLoads (Except.ok "") c4_state
    [("company_name", PyVal.str "Acme Analytics"),
      ("problem_statement", PyVal.str "Reduce churn")] rfl rfl rfl]
  rfl

/-- Two states agreeing only on `tech_type` and the case's company name. -/
def c10_s : InterviewState :=
  { (initial_interview_state "Dana" "Data Scientist" ["Python"]) with
    current_phase := "approach", tech_type := some "Technical",
    case_study := acmeCase }

def c10_t : InterviewState :=
  { (initial_interview_state "Riley" "ML Engineer" []) with
    current_phase := "approach", tech_type := some "Technical",
    case_study := .dict [("company_name", .str "Acme Analytics"),
      ("problem_statement", .str "Improve retention"),
      ("title", .str "Churn case")],
    messages := [.human "hello there"], understanding_question_count := 3,
    understanding_complete := true }

/-- C10: the structured workspace prompt emitted on the approach phase's
first pass is built locally, with no call to the generation service (the
result is the same for every generation and parsing oracle), and its text
is the pure function `framework_guidance` of the technical flag and the
case's company name: any two states agreeing on those two inputs receive
character-identical prompt text. -/
theorem approach_prompt_deterministic
    (s t : InterviewState) (kvs kvt : List (String × PyVal))
    (l1 l2 : String → Option PyVal) (r1 r2 : Except PyErr String)
    (c : String) (b : Bool)
    (hs0 : s.approach_question_count = 0)
    (ht0 : t.approach_question_count = 0)
    (hsd : s.case_study = .dict kvs) (htd : t.case_study = .dict kvt)
    (hsc : ((dictGet kvs "company_name").getD (.str "the company")).pyStr = c)
    (htc : ((dictGet kvt "company_name").getD (.str "the company")).pyStr = c)
    (hsb : (s.tech_type.getD "" == "Technical") = b)
    (htb : (t.tech_type.getD "" == "Technical") = b) :
    approach_node l1 r1 s = Except.ok { s with
      messages := s.messages ++ [.ai (framework_guidance b c)],
      approach_question_count := 1,
      current_activity := "awaiting_approach_structured" } ∧
    approach_node l2 r2 t = Except.ok { t with
      messages := t.messages ++ [.ai (framework_guidance b c)],
      approach_question_count := 1,
      current_activity := "awaiting_approach_structured" } := by
  have H1 := approach_first_pass l1 r1 s kvs hs0 hsd
  have H2 := approach_first_pass l2 r2 t kvt ht0 htd
  rw [hsb, hsc] at H1
  rw [htb, htc] at H2
  exact ⟨H1, H2⟩

/-- Witness for C10 at two concretely different states (different roles,
messages, counters, case problem texts and oracles) that agree on
`tech_type` and company name: the emitted prompt texts coincide. -/
theorem approach_prompt_deterministic_witness :
    (approach_node noLoads (Except.ok "ignored") c10_s).map
      (fun s => s.messages.getLast?) =
    (approach_node c7w_loads (Except.error .llmError) c10_t).map
      (fun s => s.messages.getLast?) := by
  obtain ⟨h1, h2⟩ := approach_prompt_deterministic c10_s c10_t
    [("company_name", .str "Acme Analytics"),
      ("problem_statement", .str "Reduce churn")]
    [("company_name", .str "Acme Analytics"),
      ("problem_statement", .str "Improve retention"),
      ("title", .str "Churn case")]
    noLoads c7w_loads (Except.ok "ignored") (Except.error .llmError)
    "Acme Analytics" true rfl rfl rfl rfl rfl rfl rfl rfl
  rw [h1, h2]
  rfl

/-- Sequential application of engine passes. -/
def enginePasses : List Pass → InterviewState → Except PyErr InterviewState
  | [], s => Except.ok s
  | p :: ps, s => p.apply s >>= enginePasses ps

/-- The initial state of a fresh interview. -/
def c9_start : InterviewState :=
  initial_interview_state "Dana" "Data Scientist" ["Python"]

/-- C9 counterexample: a concrete sequence of engine passes from the
initial state under which `approach_question_count` decreases.  Case
generation (fallback case) is followed by an approach pass (counter 0 → 1)
and then by the understanding evaluation node, whose update resets
`approach_question_count` back to 0. -/
theorem approach_count_decrease_counterexample :
    (enginePasses [.genCase noLoads (Except.ok "") 0,
      .approach noLoads (Except.ok "")] c9_start).map
      (fun s => s.approach_question_count) = Except.ok 1 ∧
    (enginePasses [.genCase noLoads (Except.ok "") 0,
      .approach noLoads (Except.ok ""),
      .understandingEval noLoads (Except.ok "")] c9_start).map
      (fun s => s.approach_question_count) = Except.ok 0 :=
  ⟨rfl, rfl⟩

/-- C9 amended: across any engine pass, each of the two question counters
is unchanged or incremented by exactly 1 — **except** that the generation
branch of generate_case_node resets `understanding_question_count` to 0,
and understanding_evaluation_node resets `approach_question_count` to 0.
The resets are what refute the claimed monotonicity. -/
theorem counter_step_bounds (p : Pass) (s s' : InterviewState)
    (h : p.apply s = Except.ok s') :
    (s'.understanding_question_count = s.understanding_question_count ∨
      s'.understanding_question_count =
        s.understanding_question_count + 1 ∨
      (s'.understanding_question_count = 0 ∧ p.isGenCase = true)) ∧
    (s'.approach_question_count = s.approach_question_count ∨
      s'.approach_question_count = s.approach_question_count + 1 ∨
      (s'.approach_question_count = 0 ∧ p.isUnderstandingEval = true)) := by
  cases p with
  | genMCQ loads resp =>
    obtain ⟨-, hu, ha⟩ := generate_mcq_node_step h
    exact ⟨Or.inl hu, Or.inl ha⟩
  | processMCQ loads resp =>
    obtain ⟨-, hu, ha⟩ := process_mcq_answers_node_step h
    exact ⟨Or.inl hu, Or.inl ha⟩
  | genCase loads resp now =>
    obtain ⟨-, hu, ha⟩ := generate_case_node_step h
    rcases hu with hu | hu
    · exact ⟨Or.inl hu, Or.inl ha⟩
    · exact ⟨Or.inr (Or.inr ⟨hu, rfl⟩), Or.inl ha⟩
  | understanding loads resp =>
    obtain ⟨-, hu, ha⟩ := understanding_node_step loads resp s s' h
    rcases hu with hu | hu
    · exact ⟨Or.inl hu, Or.inl ha⟩
    · exact ⟨Or.inr (Or.inl hu), Or.inl ha⟩
  | understandingEval loads resp =>
    obtain ⟨-, hu, ha⟩ := understanding_evaluation_node_step h
    exact ⟨Or.inl hu, Or.inr (Or.inr ⟨ha, rfl⟩)⟩
  | approach loads resp =>
    obtain ⟨-, hu, ha⟩ := approach_node_step loads resp s s' h
    rcases ha with ha | ha
    · exact ⟨Or.inl hu, Or.inl ha⟩
    · exact ⟨Or.inl hu, Or.inr (Or.inl ha)⟩
  | approachEval loads resp =>
    obtain ⟨-, hu, ha⟩ := approach_evaluation_node_step h
    exact ⟨Or.inl hu, Or.inl ha⟩
  | followup loads resp =>
    obtain ⟨-, hu, ha⟩ := followup_node_step loads resp s s' h
    exact ⟨Or.inl hu, Or.inl ha⟩
  | followupEval loads resp =>
    obtain ⟨-, hu, ha⟩ := followup_evaluation_node_step h
    exact ⟨Or.inl hu, Or.inl ha⟩
  | finalEval loads resp =>
    obtain ⟨-, hu, ha⟩ := final_evaluation_node_step h
    exact ⟨Or.inl hu, Or.inl ha⟩
  | userMessage t =>
    obtain rfl := Except.ok.inj h
    exact ⟨Or.inl rfl, Or.inl rfl⟩

def c9w_out : InterviewState :=
  { c9_start with messages := c9_start.messages ++ [.human "hello"] }

/-- Witness for C9's amended theorem at a concrete user-message pass. -/
theorem counter_step_bounds_witness :
    (c9w_out.understanding_question_count =
        c9_start.understanding_question_count ∨
      c9w_out.understanding_question_count =
        c9_start.understanding_question_count + 1 ∨
      (c9w_out.understanding_question_count = 0 ∧
        (Pass.userMessage "hello").isGenCase = true)) ∧
    (c9w_out.approach_question_count = c9_start.approach_question_count ∨
      c9w_out.approach_question_count =
        c9_start.approach_question_count + 1 ∨
      (c9w_out.approach_question_count = 0 ∧
        (Pass.userMessage "hello").isUnderstandingEval = true)) :=
  counter_step_bounds (Pass.userMessage "hello") c9_start c9w_out rfl
